import Mathlib

/-!
Verification of the car-rental pricing and quote engine.

This file gives a shallow embedding of the dynamic-pricing core of the
car-rental booking backend:

* the price rule engine (applyPriceRules, calculateRentalPrice) from
  services/pricingService.js,
* the coupon logic (applyCouponDiscount, calculateTaxes, generateQuote) from
  the same module,
* the coupon validator (isCouponValid) from models/coupons.js, and
* the availability check of the quote endpoint (getBookingQuote) from
  controllers/bookingsController.js.

Modelling conventions:

* JavaScript numbers are modelled as exact rationals.  Math.round(x) is
  modelled as the floor of x + 1/2, which matches the JS specification of
  Math.round for every real argument.
* Timestamps and calendar dates are rationals measured in days since the
  epoch (JS millisecond timestamps divided by 86 400 000).  A day-of-week of
  a timestamp t is (floor t + 4) mod 7, with 0 = Sunday, matching
  Date.prototype.getDay for UTC-anchored dates (day 0, 1970-01-01, was a
  Thursday = 4).  Date strings of the source become their day numbers.
* Optional / possibly-undefined numeric record fields become Option values,
  and the JS truthiness tests that guard them (if (rule.pct) ...) are
  modelled by truthyQ: undefined and 0 are falsy.
* Thrown exceptions become Except String results.
* The JS array sort used for length rules is stable (Array.prototype.sort is
  required to be stable); it is modelled with the stable insertionSort on
  the minDays key.  Length rules carry a minDays field per the data model;
  a length rule without minDays is sorted by key 0 here (in JS its NaN
  comparator leaves order unchanged) and never applies, exactly as in JS
  where nights >= undefined is false.
* The module-level DEFAULT_PRICE_RULES list of the source is only the
  default value of the rules parameter; here the rule list is always passed
  explicitly.
-/

attribute [local semireducible] Rat.add Rat.mul Rat.inv Rat.sub Rat.ofScientific

namespace CarRental

/-- Decidable equality of Except results, so that concrete runs of the
fallible operations can be checked by decide. -/
instance {ε α : Type} [DecidableEq ε] [DecidableEq α] : DecidableEq (Except ε α) := fun x y =>
  match x, y with
  | .ok a, .ok b =>
    if h : a = b then .isTrue (by rw [h]) else .isFalse (by simp [h])
  | .error a, .error b =>
    if h : a = b then .isTrue (by rw [h]) else .isFalse (by simp [h])
  | .ok _, .error _ => .isFalse (by simp)
  | .error _, .ok _ => .isFalse (by simp)

/-- JS Math.round as a function on exact rationals. -/
def jsRound (q : ℚ) : ℤ := ⌊q + 1/2⌋

/-- The pattern Math.round(x * 100) / 100 used throughout the source to
round money amounts to two decimal places. -/
def round2 (q : ℚ) : ℚ := (jsRound (q * 100) : ℚ) / 100

/-- JS truthiness of a possibly-undefined numeric field: undefined and 0 are
falsy, every other number is truthy. -/
def truthyQ : Option ℚ → Bool
  | none => false
  | some x => x != 0

/-- A price rule record.  The three kinds (season, weekend, length) are
distinguished by the type tag, exactly as in the loose JS schema.  The
season end date is called endD because end is a Lean keyword. -/
structure PriceRule where
  type : String
  name : String := ""
  pct : Option ℚ := none
  flat : Option ℚ := none
  minDays : Option ℚ := none
  start : Option ℚ := none
  endD : Option ℚ := none
deriving Repr, DecidableEq

/-- An entry of the appliedRules lists produced by the pricing service. -/
structure AppliedRule where
  type : String
  name : String
  adjustment : ℚ
  discount : Option ℚ := none
deriving Repr, DecidableEq

/-- Source isWeekend: day 5 (Friday), 6 (Saturday) or 0 (Sunday). -/
def isWeekend (date : ℚ) : Bool :=
  let day : ℤ := (⌊date⌋ + 4) % 7
  day == 5 || day == 6 || day == 0

/-- Source isInSeasonalPeriod: inclusive containment in [seasonStart,
seasonEnd].  A missing bound gives an invalid JS date, whose comparisons are
all false. -/
def isInSeasonalPeriod (date : ℚ) : Option ℚ → Option ℚ → Bool
  | some s, some e => decide (s ≤ date) && decide (date ≤ e)
  | _, _ => false

/-- One iteration of the season-rule loop of applyPriceRules: if the date is
inside the rule window, multiply by 1 + pct/100 for a (truthy) percentage
rule, else add flat for a (truthy) flat rule, recording the applied rule. -/
def applyOneSeason (date : ℚ) (acc : ℚ × List AppliedRule) (rule : PriceRule) :
    ℚ × List AppliedRule :=
  if isInSeasonalPeriod date rule.start rule.endD then
    if truthyQ rule.pct then
      (acc.1 * (1 + rule.pct.getD 0 / 100),
       acc.2 ++ [{ type := "season", name := rule.name, adjustment := rule.pct.getD 0 }])
    else if truthyQ rule.flat then
      (acc.1 + rule.flat.getD 0,
       acc.2 ++ [{ type := "season", name := rule.name, adjustment := rule.flat.getD 0 }])
    else acc
  else acc

/-- The weekend branch of applyPriceRules applied to the first weekend rule
found.  The JS fallback name || "Weekend Surcharge" is the empty-string
truthiness test. -/
def applyWeekendRule (acc : ℚ × List AppliedRule) (rule : PriceRule) :
    ℚ × List AppliedRule :=
  let wname := if rule.name == "" then "Weekend Surcharge" else rule.name
  if truthyQ rule.pct then
    (acc.1 * (1 + rule.pct.getD 0 / 100),
     acc.2 ++ [{ type := "weekend", name := wname, adjustment := rule.pct.getD 0 }])
  else if truthyQ rule.flat then
    (acc.1 + rule.flat.getD 0,
     acc.2 ++ [{ type := "weekend", name := wname, adjustment := rule.flat.getD 0 }])
  else acc

/-- Source applyPriceRules: apply every containing season rule in rule-list
order, then, on weekends, the first weekend rule of the list; finally round
the adjusted nightly price to 2 decimals. -/
def applyPriceRules (basePrice : ℚ) (date : ℚ) (priceRules : List PriceRule) :
    ℚ × List AppliedRule :=
  let seasonRules := priceRules.filter (fun rule => rule.type == "season")
  let afterSeason := seasonRules.foldl (applyOneSeason date) (basePrice, [])
  let afterWeekend :=
    if isWeekend date then
      match priceRules.find? (fun rule => rule.type == "weekend") with
      | some rule => applyWeekendRule afterSeason rule
      | none => afterSeason
    else afterSeason
  (round2 afterWeekend.1, afterWeekend.2)

/-- One record of the dailyBreakdown list. -/
structure DayEntry where
  date : ℚ
  price : ℚ
  appliedRules : List AppliedRule
deriving Repr, DecidableEq

/-- The unique-rule collection of calculateRentalPrice: push unless an entry
with the same name is already present. -/
def dedupPush (acc : List AppliedRule) (rule : AppliedRule) : List AppliedRule :=
  if acc.any (fun r => r.name == rule.name) then acc else acc ++ [rule]

/-- The per-day loop of calculateRentalPrice: for day indices 0..nights-1
accumulate the running (unrounded) total, the daily breakdown, and the
deduplicated list of season and weekend rules seen. -/
def dayLoop (basePrice startDate : ℚ) (priceRules : List PriceRule) (nights : ℕ) :
    ℚ × List DayEntry × List AppliedRule :=
  (List.range nights).foldl
    (fun acc i =>
      let currentDate := startDate + (i : ℚ)
      let day := applyPriceRules basePrice currentDate priceRules
      (acc.1 + day.1,
       acc.2.1 ++ [{ date := currentDate, price := day.1, appliedRules := day.2 }],
       day.2.foldl dedupPush acc.2.2))
    (0, [], [])

/-- JS comparison nights >= rule.minDays: false when minDays is undefined. -/
def minDaysQualifies (rule : PriceRule) (nights : ℚ) : Bool :=
  match rule.minDays with
  | none => false
  | some md => decide (md ≤ nights)

/-- The body of the length-rule loop for the first qualifying rule:
percentage rules discount totalPrice * |pct| / 100, flat rules the flat
amount; a rule with neither truthy field leaves the zero discount. -/
def lengthRuleResult (totalPrice : ℚ) (rule : PriceRule) : ℚ × Option AppliedRule :=
  if truthyQ rule.pct then
    (totalPrice * (|rule.pct.getD 0| / 100),
     some { type := "length", name := rule.name, adjustment := rule.pct.getD 0,
            discount := some (totalPrice * (|rule.pct.getD 0| / 100)) })
  else if truthyQ rule.flat then
    (rule.flat.getD 0,
     some { type := "length", name := rule.name, adjustment := rule.flat.getD 0,
            discount := some (rule.flat.getD 0) })
  else (0, none)

/-- The length-discount loop of calculateRentalPrice: walk the sorted rules
and break at the first rule whose minDays <= nights. -/
def lengthLoop (totalPrice nights : ℚ) : List PriceRule → ℚ × Option AppliedRule
  | [] => (0, none)
  | rule :: rest =>
    if minDaysQualifies rule nights then lengthRuleResult totalPrice rule
    else lengthLoop totalPrice nights rest

/-- The descending minDays ordering of the length-rule sort
(b.minDays - a.minDays comparator). -/
def minDaysGE (a b : PriceRule) : Prop := b.minDays.getD 0 ≤ a.minDays.getD 0

instance : DecidableRel minDaysGE := fun a b =>
  inferInstanceAs (Decidable (b.minDays.getD 0 ≤ a.minDays.getD 0))

/-- The sorted length-rule list of calculateRentalPrice: rules of type
length, stably sorted by descending minDays (largest threshold first). -/
def sortedLengthRules (priceRules : List PriceRule) : List PriceRule :=
  List.insertionSort minDaysGE (priceRules.filter (fun rule => rule.type == "length"))

/-- The breakdown record returned by calculateRentalPrice. -/
structure RentalCalc where
  basePrice : ℚ
  nights : ℤ
  subtotal : ℚ
  lengthDiscount : ℚ
  appliedLengthRule : Option AppliedRule
  dailyBreakdown : List DayEntry
  seasonalAndWeekendRules : List AppliedRule
deriving Repr, DecidableEq

/-- The successful branch of calculateRentalPrice: price each day, apply at
most one length rule, and round subtotal and discount to 2 decimals
independently. -/
def rentalCalcOf (basePrice startDate : ℚ) (priceRules : List PriceRule)
    (nights : ℤ) : RentalCalc :=
  let day := dayLoop basePrice startDate priceRules nights.toNat
  let ld := lengthLoop day.1 (nights : ℚ) (sortedLengthRules priceRules)
  { basePrice := basePrice, nights := nights,
    subtotal := round2 day.1,
    lengthDiscount := round2 ld.1,
    appliedLengthRule := ld.2,
    dailyBreakdown := day.2.1,
    seasonalAndWeekendRules := day.2.2 }

/-- Source calculateRentalPrice: nights is the ceiling of the day span;
nights <= 0 throws; otherwise build the breakdown. -/
def calculateRentalPrice (basePrice startDate endDate : ℚ)
    (priceRules : List PriceRule) : Except String RentalCalc :=
  let nights : ℤ := ⌈endDate - startDate⌉
  if nights ≤ 0 then .error "End date must be after start date"
  else .ok (rentalCalcOf basePrice startDate priceRules nights)

/-- A coupon record. -/
structure Coupon where
  code : String := ""
  pct : Option ℚ := none
  flat : Option ℚ := none
  expiresAt : ℚ := 0
  active : Bool := true
  usageLimit : Option ℚ := none
  usageCount : ℚ := 0
  minDays : Option ℚ := none
deriving Repr, DecidableEq

/-- Source applyCouponDiscount: null coupon gives 0; a truthy minDays with
nights below it throws; otherwise percentage or flat discount, clamped by
min to the subtotal. -/
def applyCouponDiscount (subtotal : ℚ) (coupon : Option Coupon) (nights : ℚ) :
    Except String ℚ :=
  match coupon with
  | none => .ok 0
  | some c =>
    if truthyQ c.minDays && decide (nights < c.minDays.getD 0) then
      .error ("Coupon requires minimum " ++ toString (c.minDays.getD 0) ++ " days rental")
    else
      let discount : ℚ :=
        if truthyQ c.pct then subtotal * (c.pct.getD 0 / 100)
        else if truthyQ c.flat then c.flat.getD 0
        else 0
      .ok (min discount subtotal)

/-- Source calculateTaxes with its default 10 percent rate. -/
def calculateTaxes (amount : ℚ) (taxRate : ℚ := 1/10) : ℚ :=
  round2 (amount * taxRate)

/-- A car record, restricted to the fields the pricing service reads. -/
structure Car where
  dailyRentalPrice : Option ℚ := none
  price : Option ℚ := none
deriving Repr, DecidableEq

/-- The base-price resolution car.dailyRentalPrice || car.price || 0 of
generateQuote: the first truthy value wins, with 0 as permissive default. -/
def basePriceOf (car : Car) : ℚ :=
  if truthyQ car.dailyRentalPrice then car.dailyRentalPrice.getD 0
  else if truthyQ car.price then car.price.getD 0
  else 0

/-- The nested priceBreakdown record of a quote. -/
structure PriceBreakdown where
  baseSubtotal : ℚ
  afterLengthDiscount : ℚ
  afterCouponDiscount : ℚ
  taxableAmount : ℚ
  finalTotal : ℚ
deriving Repr, DecidableEq

/-- The appliedRules.coupon record of a quote. -/
structure CouponApplied where
  code : String
  discount : ℚ
  error : Option String
deriving Repr, DecidableEq

/-- The appliedRules record of a quote. -/
structure QuoteApplied where
  length : Option AppliedRule
  seasonal : List AppliedRule
  coupon : Option CouponApplied
deriving Repr, DecidableEq

/-- The quote returned by generateQuote. -/
structure Quote where
  nightly : ℚ
  nights : ℤ
  subtotal : ℚ
  lengthDiscount : ℚ
  couponDiscount : ℚ
  taxes : ℚ
  total : ℚ
  priceBreakdown : PriceBreakdown
  appliedRules : QuoteApplied
  dailyBreakdown : List DayEntry
deriving Repr, DecidableEq

/-- The coupon step of generateQuote: apply the discount inside try/catch,
demoting a throw to a zero discount plus the captured message. -/
def couponStep (subtotalAfterLengthDiscount : ℚ) (coupon : Option Coupon)
    (nights : ℚ) : ℚ × Option String :=
  match coupon with
  | none => (0, none)
  | some _ =>
    match applyCouponDiscount subtotalAfterLengthDiscount coupon nights with
    | .ok d => (d, none)
    | .error msg => (0, some msg)

/-- The quote-assembly tail of generateQuote, after calculateRentalPrice has
succeeded: subtract the length discount, apply the coupon non-fatally, tax
the remainder and assemble the itemized quote. -/
def assembleQuote (basePrice : ℚ) (rc : RentalCalc) (coupon : Option Coupon) : Quote :=
  let subtotalAfterLengthDiscount := rc.subtotal - rc.lengthDiscount
  let cs := couponStep subtotalAfterLengthDiscount coupon (rc.nights : ℚ)
  let amountAfterDiscounts := subtotalAfterLengthDiscount - cs.1
  let taxes := calculateTaxes amountAfterDiscounts
  let total := round2 (amountAfterDiscounts + taxes)
  { nightly := basePrice,
    nights := rc.nights,
    subtotal := round2 rc.subtotal,
    lengthDiscount := round2 rc.lengthDiscount,
    couponDiscount := round2 cs.1,
    taxes := taxes,
    total := total,
    priceBreakdown :=
      { baseSubtotal := round2 rc.subtotal,
        afterLengthDiscount := round2 subtotalAfterLengthDiscount,
        afterCouponDiscount := round2 amountAfterDiscounts,
        taxableAmount := round2 amountAfterDiscounts,
        finalTotal := total },
    appliedRules :=
      { length := rc.appliedLengthRule,
        seasonal := rc.seasonalAndWeekendRules,
        coupon := coupon.map (fun c =>
          { code := c.code, discount := round2 cs.1, error := cs.2 }) },
    dailyBreakdown := rc.dailyBreakdown }

/-- Source generateQuote: resolve the base price, price the rental, and
assemble the quote.  The only propagated failure is the invalid range error
of calculateRentalPrice. -/
def generateQuote (car : Car) (startDate endDate : ℚ) (coupon : Option Coupon)
    (priceRules : List PriceRule) : Except String Quote :=
  let basePrice := basePriceOf car
  match calculateRentalPrice basePrice startDate endDate priceRules with
  | .error msg => .error msg
  | .ok rc => .ok (assembleQuote basePrice rc coupon)

/-- The validity record returned by isCouponValid. -/
structure CouponValidity where
  valid : Bool
  reason : Option String := none
deriving Repr, DecidableEq

/-- Source isCouponValid from models/coupons.js, with the current time as an
explicit parameter standing for new Date(). -/
def isCouponValid (now : ℚ) (coupon : Coupon) : CouponValidity :=
  if !coupon.active then
    { valid := false, reason := some "Coupon is no longer active" }
  else if coupon.expiresAt < now then
    { valid := false, reason := some "Coupon has expired" }
  else if truthyQ coupon.usageLimit && decide (coupon.usageLimit.getD 0 ≤ coupon.usageCount) then
    { valid := false, reason := some "Coupon usage limit reached" }
  else { valid := true }

/-- A booking record as used by the availability check. -/
structure Booking where
  carId : String
  startDate : ℚ
  endDate : ℚ
  status : String
deriving Repr, DecidableEq

/-- The Mongo query of the availability check in getBookingQuote: same car,
status confirmed or pending, startDate <= newEnd and endDate >= newStart. -/
def bookingConflicts (carId : String) (newStart newEnd : ℚ) (b : Booking) : Bool :=
  b.carId == carId && (b.status == "confirmed" || b.status == "pending")
    && decide (b.startDate ≤ newEnd) && decide (newStart ≤ b.endDate)

/-- The conflictingBookings list of getBookingQuote over an in-memory
booking list. -/
def conflictingBookings (bookings : List Booking) (carId : String)
    (newStart newEnd : ℚ) : List Booking :=
  bookings.filter (bookingConflicts carId newStart newEnd)

/-- The unavailable flag: conflictingBookings.length > 0. -/
def unavailable (bookings : List Booking) (carId : String)
    (newStart newEnd : ℚ) : Bool :=
  decide (0 < (conflictingBookings bookings carId newStart newEnd).length)

/-- The conflictingDates field of the quote response: the conflicting ranges
when unavailable, otherwise the empty list. -/
def conflictingDates (bookings : List Booking) (carId : String)
    (newStart newEnd : ℚ) : List (ℚ × ℚ) :=
  if unavailable bookings carId newStart newEnd then
    (conflictingBookings bookings carId newStart newEnd).map
      (fun b => (b.startDate, b.endDate))
  else []

/-- The appliedRules entry a season rule contributes when it fires. -/
def mkSeasonEntry (rule : PriceRule) : AppliedRule :=
  if truthyQ rule.pct then
    { type := "season", name := rule.name, adjustment := rule.pct.getD 0 }
  else
    { type := "season", name := rule.name, adjustment := rule.flat.getD 0 }

/-- The appliedRules entries the selected weekend rule contributes: exactly
one when it has a truthy adjustment, none otherwise. -/
def weekendEntryList (rule : PriceRule) : List AppliedRule :=
  let wname := if rule.name == "" then "Weekend Surcharge" else rule.name
  if truthyQ rule.pct then
    [{ type := "weekend", name := wname, adjustment := rule.pct.getD 0 }]
  else if truthyQ rule.flat then
    [{ type := "weekend", name := wname, adjustment := rule.flat.getD 0 }]
  else []

/-- The unclamped coupon discount: subtotal * pct / 100 for percentage
coupons, the flat amount for flat coupons, 0 for a coupon with neither. -/
def rawCouponDiscount (subtotal : ℚ) (c : Coupon) : ℚ :=
  if truthyQ c.pct then subtotal * (c.pct.getD 0 / 100)
  else if truthyQ c.flat then c.flat.getD 0
  else 0

/-- The minimum-days failure message of applyCouponDiscount. -/
def minDaysMsg (c : Coupon) : String :=
  "Coupon requires minimum " ++ toString (c.minDays.getD 0) ++ " days rental"

/-- A rational is a whole number of cents.  Every rounded money amount of the
quote engine satisfies this. -/
def TwoDec (x : ℚ) : Prop := ∃ k : ℤ, x = (k : ℚ) / 100

/-! ### Helper lemmas -/

theorem jsRound_intCast (k : ℤ) : jsRound (k : ℚ) = k := by
  rw [jsRound, add_comm, Int.floor_add_int]
  norm_num

theorem round2_div100 (k : ℤ) : round2 ((k : ℚ) / 100) = (k : ℚ) / 100 := by
  rw [round2, div_mul_cancel₀ _ (by norm_num : (100 : ℚ) ≠ 0), jsRound_intCast]

theorem twoDec_round2 (x : ℚ) : TwoDec (round2 x) := ⟨jsRound (x * 100), rfl⟩

theorem TwoDec.round2_eq {x : ℚ} (h : TwoDec x) : round2 x = x := by
  obtain ⟨k, rfl⟩ := h
  exact round2_div100 k

theorem TwoDec.sub {x y : ℚ} (hx : TwoDec x) (hy : TwoDec y) : TwoDec (x - y) := by
  obtain ⟨a, rfl⟩ := hx
  obtain ⟨b, rfl⟩ := hy
  exact ⟨a - b, by push_cast; ring⟩

theorem round2_mono {x y : ℚ} (h : x ≤ y) : round2 x ≤ round2 y := by
  rw [round2, round2]
  have hf : jsRound (x * 100) ≤ jsRound (y * 100) :=
    Int.floor_le_floor (by linarith)
  have : (jsRound (x * 100) : ℚ) ≤ (jsRound (y * 100) : ℚ) := by exact_mod_cast hf
  linarith

theorem round2_zero : round2 0 = 0 := by
  have := round2_div100 0
  simpa using this

theorem calculateRentalPrice_eq_ok {basePrice startDate endDate : ℚ}
    {priceRules : List PriceRule} (hn : 0 < ⌈endDate - startDate⌉) :
    calculateRentalPrice basePrice startDate endDate priceRules =
      .ok (rentalCalcOf basePrice startDate priceRules ⌈endDate - startDate⌉) := by
  rw [calculateRentalPrice, if_neg (by omega)]

theorem calculateRentalPrice_eq_error {basePrice startDate endDate : ℚ}
    {priceRules : List PriceRule} (hn : ⌈endDate - startDate⌉ ≤ 0) :
    calculateRentalPrice basePrice startDate endDate priceRules =
      .error "End date must be after start date" := by
  rw [calculateRentalPrice, if_pos hn]

theorem calculateRentalPrice_ok {basePrice startDate endDate : ℚ}
    {priceRules : List PriceRule} {rc : RentalCalc}
    (h : calculateRentalPrice basePrice startDate endDate priceRules = .ok rc) :
    0 < ⌈endDate - startDate⌉ ∧
      rc = rentalCalcOf basePrice startDate priceRules ⌈endDate - startDate⌉ := by
  by_cases hn : ⌈endDate - startDate⌉ ≤ 0
  · rw [calculateRentalPrice_eq_error hn] at h
    exact absurd h (by simp)
  · refine ⟨by omega, ?_⟩
    rw [calculateRentalPrice_eq_ok (by omega)] at h
    exact (Except.ok.inj h).symm

theorem generateQuote_eq_ok {car : Car} {startDate endDate : ℚ}
    {coupon : Option Coupon} {priceRules : List PriceRule} {rc : RentalCalc}
    (h : calculateRentalPrice (basePriceOf car) startDate endDate priceRules = .ok rc) :
    generateQuote car startDate endDate coupon priceRules =
      .ok (assembleQuote (basePriceOf car) rc coupon) := by
  simp [generateQuote, h]

theorem generateQuote_eq_error {car : Car} {startDate endDate : ℚ}
    {coupon : Option Coupon} {priceRules : List PriceRule} {msg : String}
    (h : calculateRentalPrice (basePriceOf car) startDate endDate priceRules = .error msg) :
    generateQuote car startDate endDate coupon priceRules = .error msg := by
  simp [generateQuote, h]

theorem rentalCalcOf_subtotal_twoDec (basePrice startDate : ℚ)
    (priceRules : List PriceRule) (nights : ℤ) :
    TwoDec (rentalCalcOf basePrice startDate priceRules nights).subtotal :=
  twoDec_round2 _

theorem rentalCalcOf_lengthDiscount_twoDec (basePrice startDate : ℚ)
    (priceRules : List PriceRule) (nights : ℤ) :
    TwoDec (rentalCalcOf basePrice startDate priceRules nights).lengthDiscount :=
  twoDec_round2 _

instance : IsTotal PriceRule minDaysGE := ⟨fun _ _ => le_total _ _⟩

instance : IsTrans PriceRule minDaysGE := ⟨fun _ _ _ hab hbc => le_trans hbc hab⟩

theorem sortedLengthRules_pairwise (priceRules : List PriceRule) :
    (sortedLengthRules priceRules).Pairwise minDaysGE :=
  List.sorted_insertionSort minDaysGE _

theorem mem_sortedLengthRules {r : PriceRule} {priceRules : List PriceRule} :
    r ∈ sortedLengthRules priceRules ↔ r ∈ priceRules ∧ r.type = "length" := by
  rw [sortedLengthRules, (List.perm_insertionSort minDaysGE _).mem_iff, List.mem_filter]
  simp

theorem lengthLoop_eq_find (totalPrice nights : ℚ) (l : List PriceRule) :
    lengthLoop totalPrice nights l =
      match l.find? (fun r => minDaysQualifies r nights) with
      | none => (0, none)
      | some r => lengthRuleResult totalPrice r := by
  induction l with
  | nil => rfl
  | cons a as ih =>
    by_cases h : minDaysQualifies a nights
    · rw [lengthLoop, if_pos h,
        List.find?_cons_of_pos (p := fun r => minDaysQualifies r nights) _ h]
    · rw [lengthLoop, if_neg (by simpa using h), ih,
        List.find?_cons_of_neg (p := fun r => minDaysQualifies r nights) _ (by simpa using h)]

theorem find_qualifying_max {nights : ℚ} :
    ∀ {l : List PriceRule}, l.Pairwise minDaysGE →
    ∀ {r : PriceRule}, l.find? (fun x => minDaysQualifies x nights) = some r →
    ∀ x ∈ l, minDaysQualifies x nights = true →
      x.minDays.getD 0 ≤ r.minDays.getD 0 := by
  intro l
  induction l with
  | nil => intro _ r hf; simp at hf
  | cons a as ih =>
    intro hp r hf x hx hqx
    rw [List.pairwise_cons] at hp
    by_cases ha : minDaysQualifies a nights
    · rw [List.find?_cons_of_pos (p := fun x => minDaysQualifies x nights) _ ha] at hf
      obtain rfl : a = r := by simpa using hf
      rcases List.mem_cons.mp hx with rfl | hmem
      · exact le_refl _
      · exact hp.1 x hmem
    · rw [List.find?_cons_of_neg (p := fun x => minDaysQualifies x nights) _
        (by simpa using ha)] at hf
      rcases List.mem_cons.mp hx with rfl | hmem
      · exact absurd hqx (by simpa using ha)
      · exact ih hp.2 hf x hmem hqx

/-! ### Claims -/

/-- C10: applyCouponDiscount with a null coupon returns 0 for every subtotal
and night count and never fails; the null-coupon guard precedes both the
minimum-days check and the discount computation. -/
theorem C10_null_coupon (subtotal nights : ℚ) :
    applyCouponDiscount subtotal none nights = .ok 0 := rfl

/-- C4: calculateRentalPrice computes nights as the ceiling of the day span
and fails with the invalid-range error exactly when nights is nonpositive;
the failure propagates through generateQuote, which produces no quote, while
a positive night count always yields a breakdown whose nights field is the
ceiling. -/
theorem C4_invalid_range (car : Car) (basePrice startDate endDate : ℚ)
    (coupon : Option Coupon) (priceRules : List PriceRule) :
    (⌈endDate - startDate⌉ ≤ 0 →
      calculateRentalPrice basePrice startDate endDate priceRules =
        .error "End date must be after start date" ∧
      generateQuote car startDate endDate coupon priceRules =
        .error "End date must be after start date") ∧
    (0 < ⌈endDate - startDate⌉ →
      calculateRentalPrice basePrice startDate endDate priceRules =
        .ok (rentalCalcOf basePrice startDate priceRules ⌈endDate - startDate⌉) ∧
      (rentalCalcOf basePrice startDate priceRules ⌈endDate - startDate⌉).nights =
        ⌈endDate - startDate⌉ ∧
      (generateQuote car startDate endDate coupon priceRules).isOk = true) := by
  constructor
  · intro hn
    exact ⟨calculateRentalPrice_eq_error hn,
      generateQuote_eq_error (calculateRentalPrice_eq_error hn)⟩
  · intro hn
    refine ⟨calculateRentalPrice_eq_ok hn, rfl, ?_⟩
    rw [generateQuote_eq_ok (calculateRentalPrice_eq_ok hn)]
    rfl

/-- Witness for C4: a 0-day range fails with the invalid-range error, a
5-day range yields a quote. -/
theorem C4_invalid_range_witness :
    calculateRentalPrice 100 5 5 [] = .error "End date must be after start date" ∧
    (generateQuote { dailyRentalPrice := some 100 } 0 5 none []).isOk = true :=
  ⟨((C4_invalid_range { dailyRentalPrice := some 100 } 100 5 5 none []).1
      (by decide)).1,
   ((C4_invalid_range { dailyRentalPrice := some 100 } 100 0 5 none []).2
      (by decide)).2.2⟩

/-- C9: generateQuote never fails because of a missing or zero nightly rate:
the base price resolves to the first truthy of dailyRentalPrice and price,
defaulting to 0, and for every valid range a quote is produced whose nightly
field is that resolved base price. -/
theorem C9_base_price_permissive (car : Car) (startDate endDate : ℚ)
    (coupon : Option Coupon) (priceRules : List PriceRule)
    (hn : 0 < ⌈endDate - startDate⌉) :
    basePriceOf car =
      (if truthyQ car.dailyRentalPrice then car.dailyRentalPrice.getD 0
       else if truthyQ car.price then car.price.getD 0 else 0) ∧
    generateQuote car startDate endDate coupon priceRules =
      .ok (assembleQuote (basePriceOf car)
        (rentalCalcOf (basePriceOf car) startDate priceRules ⌈endDate - startDate⌉)
        coupon) ∧
    (assembleQuote (basePriceOf car)
        (rentalCalcOf (basePriceOf car) startDate priceRules ⌈endDate - startDate⌉)
        coupon).nightly = basePriceOf car ∧
    (car.dailyRentalPrice = none → car.price = none → basePriceOf car = 0) := by
  refine ⟨rfl, generateQuote_eq_ok (calculateRentalPrice_eq_ok hn), rfl, ?_⟩
  intro h1 h2
  simp [basePriceOf, h1, h2, truthyQ]

/-- Witness for C9: a car with no price fields at all still gets a quote,
with nightly rate 0. -/
theorem C9_base_price_permissive_witness :
    generateQuote {} (0 : ℚ) 2 none [] =
      .ok (assembleQuote (basePriceOf {})
        (rentalCalcOf (basePriceOf {}) 0 [] ⌈(2 : ℚ) - 0⌉) none) ∧
    basePriceOf {} = 0 :=
  ⟨(C9_base_price_permissive {} 0 2 none [] (by decide)).2.1,
   (C9_base_price_permissive {} 0 2 none [] (by decide)).2.2.2 rfl rfl⟩

/-- C7 counterexample: an expired coupon yields the reason string
"Coupon has expired", not the literal reason "expired" stated in the
claim. -/
theorem C7_counterexample :
    isCouponValid 20 { code := "X", pct := some 10, expiresAt := 10 } =
      { valid := false, reason := some "Coupon has expired" } ∧
    isCouponValid 20 { code := "X", pct := some 10, expiresAt := 10 } ≠
      { valid := false, reason := some "expired" } := by
  constructor
  · rfl
  · decide

/-- C7 (amended): isCouponValid checks, in order, the active flag, the
expiry, and the usage cap, returning the first failure with the reason
strings of the source ("Coupon is no longer active", "Coupon has expired",
"Coupon usage limit reached"), and returns valid with no reason otherwise;
as a pure function it leaves the coupon record, in particular usageCount,
untouched. -/
theorem C7_validity_checks (now : ℚ) (c : Coupon) :
    (c.active = false →
      isCouponValid now c =
        { valid := false, reason := some "Coupon is no longer active" }) ∧
    (c.active = true → c.expiresAt < now →
      isCouponValid now c = { valid := false, reason := some "Coupon has expired" }) ∧
    (c.active = true → ¬(c.expiresAt < now) →
      truthyQ c.usageLimit = true → c.usageLimit.getD 0 ≤ c.usageCount →
      isCouponValid now c =
        { valid := false, reason := some "Coupon usage limit reached" }) ∧
    (c.active = true → ¬(c.expiresAt < now) →
      ¬(truthyQ c.usageLimit = true ∧ c.usageLimit.getD 0 ≤ c.usageCount) →
      isCouponValid now c = { valid := true, reason := none }) := by
  refine ⟨?_, ?_, ?_, ?_⟩
  · intro h
    simp [isCouponValid, h]
  · intro h1 h2
    simp [isCouponValid, h1, h2]
  · intro h1 h2 h3 h4
    simp [isCouponValid, h1, h2, h3, h4]
  · intro h1 h2 h3
    rw [isCouponValid, if_neg (by simp [h1]), if_neg h2, if_neg]
    simpa [Bool.and_eq_true, decide_eq_true_eq] using h3

/-- Witness for C7: the expiry branch at a concrete expired coupon. -/
theorem C7_validity_checks_witness :
    isCouponValid 20 { code := "Y", flat := some 5, expiresAt := 10 } =
      { valid := false, reason := some "Coupon has expired" } :=
  (C7_validity_checks 20 { code := "Y", flat := some 5, expiresAt := 10 }).2.1
    rfl (by norm_num)

theorem applyCouponDiscount_eq_error {subtotal nights : ℚ} {c : Coupon}
    (h1 : truthyQ c.minDays = true) (h2 : nights < c.minDays.getD 0) :
    applyCouponDiscount subtotal (some c) nights = .error (minDaysMsg c) := by
  simp [applyCouponDiscount, minDaysMsg, h1, h2]

theorem applyCouponDiscount_eq_ok {subtotal nights : ℚ} {c : Coupon}
    (h : ¬(truthyQ c.minDays = true ∧ nights < c.minDays.getD 0)) :
    applyCouponDiscount subtotal (some c) nights =
      .ok (min (rawCouponDiscount subtotal c) subtotal) := by
  rw [applyCouponDiscount,
    if_neg (by simpa [Bool.and_eq_true, decide_eq_true_eq] using h)]
  rfl

theorem couponStep_none (subtotal nights : ℚ) :
    couponStep subtotal none nights = (0, none) := rfl

theorem couponStep_ok (subtotal : ℚ) {nights : ℚ} {c : Coupon}
    (h : ¬(truthyQ c.minDays = true ∧ nights < c.minDays.getD 0)) :
    couponStep subtotal (some c) nights =
      (min (rawCouponDiscount subtotal c) subtotal, none) := by
  simp [couponStep, applyCouponDiscount_eq_ok h]

theorem couponStep_error (subtotal : ℚ) {nights : ℚ} {c : Coupon}
    (h1 : truthyQ c.minDays = true) (h2 : nights < c.minDays.getD 0) :
    couponStep subtotal (some c) nights = (0, some (minDaysMsg c)) := by
  simp [couponStep, applyCouponDiscount_eq_error h1 h2]

/-- C5: applyCouponDiscount fails, with the minimum-days message, exactly
when the coupon has a truthy minDays and nights is below it; inside
generateQuote this failure is non-fatal: the quote is still produced, the
coupon discount is 0, and the message is captured in the coupon error field
of the quote. -/
theorem C5_min_days_non_fatal :
    (∀ (subtotal nights : ℚ) (c : Coupon),
      (truthyQ c.minDays = true ∧ nights < c.minDays.getD 0 →
        applyCouponDiscount subtotal (some c) nights = .error (minDaysMsg c)) ∧
      (¬(truthyQ c.minDays = true ∧ nights < c.minDays.getD 0) →
        (applyCouponDiscount subtotal (some c) nights).isOk = true)) ∧
    (∀ (car : Car) (startDate endDate : ℚ) (c : Coupon)
        (priceRules : List PriceRule),
      0 < ⌈endDate - startDate⌉ →
      let rc := rentalCalcOf (basePriceOf car) startDate priceRules
        ⌈endDate - startDate⌉
      let q := assembleQuote (basePriceOf car) rc (some c)
      truthyQ c.minDays = true → (rc.nights : ℚ) < c.minDays.getD 0 →
      generateQuote car startDate endDate (some c) priceRules = .ok q ∧
      q.couponDiscount = 0 ∧
      q.appliedRules.coupon =
        some { code := c.code, discount := 0, error := some (minDaysMsg c) } ∧
      q.taxes = calculateTaxes (rc.subtotal - rc.lengthDiscount) ∧
      q.total = round2 ((rc.subtotal - rc.lengthDiscount) +
        calculateTaxes (rc.subtotal - rc.lengthDiscount))) := by
  constructor
  · intro subtotal nights c
    constructor
    · intro h
      exact applyCouponDiscount_eq_error h.1 h.2
    · intro h
      rw [applyCouponDiscount_eq_ok h]
      rfl
  · intro car startDate endDate c priceRules hn
    intro rc q hmd hlt
    have hcs := couponStep_error (rc.subtotal - rc.lengthDiscount) hmd hlt
    refine ⟨generateQuote_eq_ok (calculateRentalPrice_eq_ok hn), ?_, ?_, ?_, ?_⟩ <;>
      simp [q, assembleQuote, hcs, round2_zero]

/-- Witness for C5: the minDays-7 coupon on a 3-night booking fails with the
message, and the quote still succeeds with a zero coupon discount. -/
theorem C5_min_days_non_fatal_witness :
    applyCouponDiscount 500 (some { code := "LT", pct := some 15, minDays := some 7 }) 3 =
      .error "Coupon requires minimum 7 days rental" ∧
    generateQuote { dailyRentalPrice := some 100 } 0 3
        (some { code := "LT", pct := some 15, minDays := some 7 }) [] =
      .ok (assembleQuote (basePriceOf { dailyRentalPrice := some 100 })
        (rentalCalcOf (basePriceOf { dailyRentalPrice := some 100 }) 0 []
          ⌈(3 : ℚ) - 0⌉)
        (some { code := "LT", pct := some 15, minDays := some 7 })) ∧
    (assembleQuote (basePriceOf { dailyRentalPrice := some 100 })
        (rentalCalcOf (basePriceOf { dailyRentalPrice := some 100 }) 0 []
          ⌈(3 : ℚ) - 0⌉)
        (some { code := "LT", pct := some 15, minDays := some 7 })).couponDiscount = 0 := by
  have h1 := (C5_min_days_non_fatal.1 500 3
    { code := "LT", pct := some 15, minDays := some 7 }).1 (by decide)
  have h2 := C5_min_days_non_fatal.2 { dailyRentalPrice := some 100 } 0 3
    { code := "LT", pct := some 15, minDays := some 7 } [] (by decide)
    (by decide) (by decide)
  exact ⟨by rw [h1]; rfl, h2.1, h2.2.1⟩

/-- C6: once the minimum-days requirement is met, applyCouponDiscount
returns the raw percentage or flat discount clamped by min to the subtotal,
so the discount never exceeds the subtotal and the remaining amount is never
negative; in a quote the (rounded) coupon discount is bounded by the
after-length-discount checkpoint and the after-coupon checkpoint is
nonnegative; a flat-50 coupon against subtotal 40 yields 40. -/
theorem C6_coupon_clamp :
    (∀ (subtotal nights : ℚ) (c : Coupon),
      ¬(truthyQ c.minDays = true ∧ nights < c.minDays.getD 0) →
      applyCouponDiscount subtotal (some c) nights =
        .ok (min (rawCouponDiscount subtotal c) subtotal) ∧
      min (rawCouponDiscount subtotal c) subtotal ≤ subtotal ∧
      0 ≤ subtotal - min (rawCouponDiscount subtotal c) subtotal) ∧
    (∀ (car : Car) (startDate endDate : ℚ) (c : Coupon)
        (priceRules : List PriceRule),
      0 < ⌈endDate - startDate⌉ →
      let rc := rentalCalcOf (basePriceOf car) startDate priceRules
        ⌈endDate - startDate⌉
      let q := assembleQuote (basePriceOf car) rc (some c)
      ¬(truthyQ c.minDays = true ∧ (rc.nights : ℚ) < c.minDays.getD 0) →
      generateQuote car startDate endDate (some c) priceRules = .ok q ∧
      q.couponDiscount ≤ q.priceBreakdown.afterLengthDiscount ∧
      0 ≤ q.priceBreakdown.afterCouponDiscount) ∧
    applyCouponDiscount 40 (some { code := "SAVE50", flat := some 50 }) 3 = .ok 40 := by
  refine ⟨?_, ?_, by decide⟩
  · intro subtotal nights c h
    exact ⟨applyCouponDiscount_eq_ok h, min_le_right _ _,
      sub_nonneg.mpr (min_le_right _ _)⟩
  · intro car startDate endDate c priceRules hn
    intro rc q h
    have hcs := couponStep_ok (rc.subtotal - rc.lengthDiscount) h
    refine ⟨generateQuote_eq_ok (calculateRentalPrice_eq_ok hn), ?_, ?_⟩
    · show round2 (couponStep (rc.subtotal - rc.lengthDiscount) (some c) (rc.nights : ℚ)).1 ≤
        round2 (rc.subtotal - rc.lengthDiscount)
      rw [hcs]
      exact round2_mono (min_le_right _ _)
    · show 0 ≤ round2 ((rc.subtotal - rc.lengthDiscount) -
        (couponStep (rc.subtotal - rc.lengthDiscount) (some c) (rc.nights : ℚ)).1)
      rw [hcs]
      calc (0 : ℚ) = round2 0 := round2_zero.symm
        _ ≤ _ := round2_mono (sub_nonneg.mpr (min_le_right _ _))

/-- Witness for C6: the flat-50 coupon against subtotal 40 is clamped to 40,
and in a 1-night quote at rate 40 the discount stays within the subtotal. -/
theorem C6_coupon_clamp_witness :
    applyCouponDiscount 40 (some { code := "SAVE50", flat := some 50 }) 3 =
      .ok (min (rawCouponDiscount 40 { code := "SAVE50", flat := some 50 }) 40) ∧
    min (rawCouponDiscount 40 { code := "SAVE50", flat := some 50 }) 40 ≤ 40 := by
  have h := C6_coupon_clamp.1 40 3 { code := "SAVE50", flat := some 50 } (by decide)
  exact ⟨h.1, h.2.1⟩

/-- C8: a stored booking conflicts with the candidate range iff it is for
the given car, its status is confirmed or pending, and the ranges overlap
inclusively (existingStart <= newEnd and existingEnd >= newStart); the
unavailable flag is true iff the conflict list is nonempty, and the
conflicting ranges are returned alongside it. -/
theorem C8_availability_overlap (bookings : List Booking) (carId : String)
    (newStart newEnd : ℚ) :
    (∀ b : Booking,
      b ∈ conflictingBookings bookings carId newStart newEnd ↔
        b ∈ bookings ∧ b.carId = carId ∧
          (b.status = "confirmed" ∨ b.status = "pending") ∧
          b.startDate ≤ newEnd ∧ newStart ≤ b.endDate) ∧
    (unavailable bookings carId newStart newEnd = true ↔
      conflictingBookings bookings carId newStart newEnd ≠ []) ∧
    (unavailable bookings carId newStart newEnd = true →
      conflictingDates bookings carId newStart newEnd =
        (conflictingBookings bookings carId newStart newEnd).map
          (fun b => (b.startDate, b.endDate))) ∧
    (unavailable bookings carId newStart newEnd = false →
      conflictingDates bookings carId newStart newEnd = []) := by
  refine ⟨?_, ?_, ?_, ?_⟩
  · intro b
    simp [conflictingBookings, bookingConflicts, List.mem_filter, and_assoc]
  · rw [unavailable, decide_eq_true_eq, List.length_pos]
  · intro h
    rw [conflictingDates, if_pos h]
  · intro h
    rw [conflictingDates, if_neg (by simp [h])]

/-- Witness for C8: one confirmed overlapping booking makes the car
unavailable and its range is reported. -/
theorem C8_availability_overlap_witness :
    (⟨"car1", 3, 6, "confirmed"⟩ : Booking) ∈
      conflictingBookings [⟨"car1", 3, 6, "confirmed"⟩] "car1" 5 9 ∧
    conflictingDates [⟨"car1", 3, 6, "confirmed"⟩] "car1" 5 9 = [(3, 6)] := by
  have h := C8_availability_overlap [⟨"car1", 3, 6, "confirmed"⟩] "car1" 5 9
  refine ⟨(h.1 _).mpr ⟨by simp, rfl, Or.inl rfl, by norm_num, by norm_num⟩, ?_⟩
  rw [h.2.2.1 (by decide)]
  decide

theorem seasonFold_snd (date : ℚ) (l : List PriceRule) :
    ∀ (p : ℚ) (acc : List AppliedRule),
    (l.foldl (applyOneSeason date) (p, acc)).2 =
      acc ++ (l.filter (fun r =>
        isInSeasonalPeriod date r.start r.endD &&
          (truthyQ r.pct || truthyQ r.flat))).map mkSeasonEntry := by
  induction l with
  | nil =>
    intro p acc
    simp
  | cons a as ih =>
    intro p acc
    rw [List.foldl_cons, List.filter_cons]
    by_cases h1 : isInSeasonalPeriod date a.start a.endD
    · by_cases h2 : truthyQ a.pct
      · rw [applyOneSeason, if_pos h1, if_pos h2, ih]
        simp [h1, h2, mkSeasonEntry]
      · by_cases h3 : truthyQ a.flat
        · rw [applyOneSeason, if_pos h1, if_neg (by simpa using h2),
            if_pos h3, ih]
          simp [h1, h2, h3, mkSeasonEntry]
        · rw [applyOneSeason, if_pos h1, if_neg (by simpa using h2),
            if_neg (by simpa using h3), ih]
          simp [h1, h2, h3]
    · rw [applyOneSeason, if_neg h1, ih]
      simp [h1]

theorem applyWeekendRule_snd (acc : ℚ × List AppliedRule) (rule : PriceRule) :
    (applyWeekendRule acc rule).2 = acc.2 ++ weekendEntryList rule := by
  rw [applyWeekendRule, weekendEntryList]
  by_cases h1 : truthyQ rule.pct
  · simp [h1]
  · by_cases h2 : truthyQ rule.flat <;> simp [h1, h2]

theorem weekendEntryList_length_le (rule : PriceRule) :
    (weekendEntryList rule).length ≤ 1 := by
  rw [weekendEntryList]
  by_cases h1 : truthyQ rule.pct
  · simp [h1]
  · by_cases h2 : truthyQ rule.flat <;> simp [h1, h2]

theorem mkSeasonEntry_type (rule : PriceRule) : (mkSeasonEntry rule).type = "season" := by
  rw [mkSeasonEntry]
  by_cases h : truthyQ rule.pct <;> simp [h]

/-- C3: applyPriceRules applies every season rule whose inclusive window
contains the date, in rule-list order, each stacking on the previous price;
on a Friday, Saturday or Sunday exactly the first weekend rule of the list
is additionally applied (none on other days, and never a second one), and
the returned nightly price is the final value rounded to 2 decimals. -/
theorem C3_price_rule_application (basePrice date : ℚ) (priceRules : List PriceRule) :
    let seasonRules := priceRules.filter (fun r => r.type == "season")
    let afterSeason := seasonRules.foldl (applyOneSeason date) (basePrice, [])
    afterSeason.2 = (seasonRules.filter (fun r =>
        isInSeasonalPeriod date r.start r.endD &&
          (truthyQ r.pct || truthyQ r.flat))).map mkSeasonEntry ∧
    (isWeekend date = false →
      applyPriceRules basePrice date priceRules =
        (round2 afterSeason.1, afterSeason.2)) ∧
    (isWeekend date = true →
      priceRules.find? (fun r => r.type == "weekend") = none →
      applyPriceRules basePrice date priceRules =
        (round2 afterSeason.1, afterSeason.2)) ∧
    (∀ w, isWeekend date = true →
      priceRules.find? (fun r => r.type == "weekend") = some w →
      applyPriceRules basePrice date priceRules =
        (round2 (applyWeekendRule afterSeason w).1,
         afterSeason.2 ++ weekendEntryList w)) ∧
    (applyPriceRules basePrice date priceRules).2.countP
      (fun a => a.type == "weekend") ≤ 1 := by
  intro seasonRules afterSeason
  have hs : afterSeason.2 = (seasonRules.filter (fun r =>
      isInSeasonalPeriod date r.start r.endD &&
        (truthyQ r.pct || truthyQ r.flat))).map mkSeasonEntry := by
    simpa using seasonFold_snd date seasonRules basePrice []
  have hs0 : afterSeason.2.countP (fun a => a.type == "weekend") = 0 := by
    rw [hs, List.countP_eq_zero]
    intro e he
    obtain ⟨r, _, rfl⟩ := List.mem_map.mp he
    simp [mkSeasonEntry_type]
  refine ⟨hs, ?_, ?_, ?_, ?_⟩
  · intro hw
    simp [applyPriceRules, hw]
  · intro hw hf
    simp [applyPriceRules, hw, hf]
  · intro w hw hf
    simp [applyPriceRules, hw, hf, applyWeekendRule_snd]
  · by_cases hw : isWeekend date
    · cases hf : priceRules.find? (fun r => r.type == "weekend") with
      | none =>
        have : applyPriceRules basePrice date priceRules =
            (round2 afterSeason.1, afterSeason.2) := by
          simp [applyPriceRules, hw, hf]
        rw [this]
        simp [hs0]
      | some w =>
        have : applyPriceRules basePrice date priceRules =
            (round2 (applyWeekendRule afterSeason w).1,
             afterSeason.2 ++ weekendEntryList w) := by
          simp [applyPriceRules, hw, hf, applyWeekendRule_snd]
        rw [this]
        calc (afterSeason.2 ++ weekendEntryList w).countP (fun a => a.type == "weekend")
            = afterSeason.2.countP (fun a => a.type == "weekend") +
              (weekendEntryList w).countP (fun a => a.type == "weekend") :=
              List.countP_append _ _ _
          _ ≤ 0 + (weekendEntryList w).length := by
              rw [hs0]
              exact Nat.add_le_add_left (List.countP_le_length _) _
          _ ≤ 1 := by simpa using weekendEntryList_length_le w
    · have hw' : isWeekend date = false := by simpa using hw
      have : applyPriceRules basePrice date priceRules =
          (round2 afterSeason.1, afterSeason.2) := by
        simp [applyPriceRules, hw']
      rw [this]
      simp [hs0]

/-- Witness for C3: a Friday inside a season window gets the season markup
and exactly one weekend markup. -/
theorem C3_price_rule_application_witness :
    applyPriceRules 100 1
      [{ type := "season", name := "S", pct := some 10, start := some 0, endD := some 3 },
       { type := "weekend", name := "W", pct := some 15 }] =
      (round2 (applyWeekendRule
        (([{ type := "season", name := "S", pct := some 10, start := some 0, endD := some 3 },
           { type := "weekend", name := "W", pct := some 15 }].filter
            (fun r => r.type == "season")).foldl (applyOneSeason 1) (100, []))
        { type := "weekend", name := "W", pct := some 15 }).1,
       (([{ type := "season", name := "S", pct := some 10, start := some 0, endD := some 3 },
          { type := "weekend", name := "W", pct := some 15 }].filter
           (fun r => r.type == "season")).foldl (applyOneSeason 1) (100, [])).2 ++
         weekendEntryList { type := "weekend", name := "W", pct := some 15 }) ∧
    (applyPriceRules 100 1
      [{ type := "season", name := "S", pct := some 10, start := some 0, endD := some 3 },
       { type := "weekend", name := "W", pct := some 15 }]).2.countP
        (fun a => a.type == "weekend") ≤ 1 := by
  have h := C3_price_rule_application 100 1
    [{ type := "season", name := "S", pct := some 10, start := some 0, endD := some 3 },
     { type := "weekend", name := "W", pct := some 15 }]
  exact ⟨h.2.2.2.1 { type := "weekend", name := "W", pct := some 15 }
    (by decide) (by decide), h.2.2.2.2⟩

/-- C2: in calculateRentalPrice at most one length rule fires: among the
length rules sorted by descending minDays, the first whose minDays is at
most the night count is applied (so the largest qualifying threshold wins);
a percentage rule discounts totalPrice times the absolute percentage over
100, a flat rule its flat amount (the reported lengthDiscount is that value
rounded to 2 decimals), and with no qualifying rule the discount is 0 and no
rule is reported. -/
theorem C2_length_rule_selection (basePrice startDate endDate : ℚ)
    (priceRules : List PriceRule) (hn : 0 < ⌈endDate - startDate⌉) :
    let rc := rentalCalcOf basePrice startDate priceRules ⌈endDate - startDate⌉
    let total := (dayLoop basePrice startDate priceRules (⌈endDate - startDate⌉).toNat).1
    calculateRentalPrice basePrice startDate endDate priceRules = .ok rc ∧
    ((sortedLengthRules priceRules).find?
        (fun r => minDaysQualifies r (rc.nights : ℚ)) = none →
      rc.lengthDiscount = 0 ∧ rc.appliedLengthRule = none) ∧
    (∀ r, (sortedLengthRules priceRules).find?
        (fun r => minDaysQualifies r (rc.nights : ℚ)) = some r →
      (∀ r2 ∈ priceRules, r2.type = "length" →
        minDaysQualifies r2 (rc.nights : ℚ) = true →
        r2.minDays.getD 0 ≤ r.minDays.getD 0) ∧
      (truthyQ r.pct = true →
        rc.lengthDiscount = round2 (total * (|r.pct.getD 0| / 100)) ∧
        rc.appliedLengthRule =
          some { type := "length", name := r.name, adjustment := r.pct.getD 0,
                 discount := some (total * (|r.pct.getD 0| / 100)) }) ∧
      (truthyQ r.pct = false → truthyQ r.flat = true →
        rc.lengthDiscount = round2 (r.flat.getD 0) ∧
        rc.appliedLengthRule =
          some { type := "length", name := r.name, adjustment := r.flat.getD 0,
                 discount := some (r.flat.getD 0) }) ∧
      (truthyQ r.pct = false → truthyQ r.flat = false →
        rc.lengthDiscount = 0 ∧ rc.appliedLengthRule = none)) := by
  intro rc total
  have hld : rc.lengthDiscount =
      round2 (lengthLoop total (rc.nights : ℚ) (sortedLengthRules priceRules)).1 := rfl
  have har : rc.appliedLengthRule =
      (lengthLoop total (rc.nights : ℚ) (sortedLengthRules priceRules)).2 := rfl
  refine ⟨calculateRentalPrice_eq_ok hn, ?_, ?_⟩
  · intro hf
    have hmain : lengthLoop total (rc.nights : ℚ) (sortedLengthRules priceRules) =
        (0, none) := by
      rw [lengthLoop_eq_find, hf]
    rw [hld, har, hmain]
    exact ⟨round2_zero, rfl⟩
  · intro r hf
    have hmain : lengthLoop total (rc.nights : ℚ) (sortedLengthRules priceRules) =
        lengthRuleResult total r := by
      rw [lengthLoop_eq_find, hf]
    refine ⟨?_, ?_, ?_, ?_⟩
    · intro r2 hmem htype hq
      exact find_qualifying_max (sortedLengthRules_pairwise priceRules) hf r2
        (mem_sortedLengthRules.mpr ⟨hmem, htype⟩) hq
    · intro hpct
      rw [hld, har, hmain, lengthRuleResult, if_pos hpct]
      exact ⟨rfl, rfl⟩
    · intro hpct hflat
      rw [hld, har, hmain, lengthRuleResult,
        if_neg (by simp [hpct]), if_pos hflat]
      exact ⟨rfl, rfl⟩
    · intro hpct hflat
      rw [hld, har, hmain, lengthRuleResult,
        if_neg (by simp [hpct]), if_neg (by simp [hflat])]
      exact ⟨round2_zero, rfl⟩

/-- Witness for C2: with a 7-night and a 30-night threshold on an 8-night
stay, the 7-night rule is selected and its 10 percent discount applied. -/
theorem C2_length_rule_selection_witness :
    (rentalCalcOf 50 0
      [{ type := "length", name := "Weekly", pct := some (-10), minDays := some 7 },
       { type := "length", name := "Monthly", pct := some (-20), minDays := some 30 }]
      ⌈(8 : ℚ) - 0⌉).lengthDiscount =
      round2 ((dayLoop 50 0
        [{ type := "length", name := "Weekly", pct := some (-10), minDays := some 7 },
         { type := "length", name := "Monthly", pct := some (-20), minDays := some 30 }]
        (⌈(8 : ℚ) - 0⌉).toNat).1 * (|((-10 : ℚ))| / 100)) := by
  have h := C2_length_rule_selection 50 0 8
    [{ type := "length", name := "Weekly", pct := some (-10), minDays := some 7 },
     { type := "length", name := "Monthly", pct := some (-20), minDays := some 30 }]
    (by decide)
  exact ((h.2.2 { type := "length", name := "Weekly", pct := some (-10), minDays := some 7 }
    (by decide)).2.1 (by decide)).1

/-- C1 counterexample: with base price 100.50, one night and a 1-percent
coupon the quote has afterCouponDiscount 99.50 and total 109.45, but the
checkpoints recomputed from the rounded quote fields subtotal,
lengthDiscount and couponDiscount give 99.49 and 109.44: the claimed
equalities fail because couponDiscount is rounded separately from the
unrounded amount the quote actually taxes and totals. -/
theorem C1_counterexample :
    (generateQuote { dailyRentalPrice := some (201/2) } 0 1
        (some { code := "P1", pct := some 1 }) []).map
      (fun q => (q.priceBreakdown.afterCouponDiscount,
                 q.subtotal - q.lengthDiscount - q.couponDiscount,
                 q.total,
                 round2 ((q.subtotal - q.lengthDiscount - q.couponDiscount) + q.taxes))) =
      .ok (199/2, 9949/100, 10945/100, 10944/100) ∧
    (199/2 : ℚ) ≠ 9949/100 ∧ (10945/100 : ℚ) ≠ 10944/100 := by
  refine ⟨by decide, by norm_num, by norm_num⟩

/-- C1 (amended): for every quote, with couponDiscountRaw the unrounded
coupon discount (0 when the coupon is absent or fails) and
amountAfterDiscounts = (subtotal - lengthDiscount) - couponDiscountRaw, the
taxes equal round2(amountAfterDiscounts * 0.10), the total equals
round2(amountAfterDiscounts + taxes), the quote couponDiscount field is
round2(couponDiscountRaw), and the breakdown satisfies baseSubtotal =
subtotal, afterLengthDiscount = subtotal - lengthDiscount,
afterCouponDiscount = taxableAmount = round2(amountAfterDiscounts) and
finalTotal = total; in particular for base price 100, 5 nights, no rules and
no coupon: subtotal 500, taxes 50, total 550. -/
theorem C1_quote_arithmetic :
    (∀ (car : Car) (startDate endDate : ℚ) (coupon : Option Coupon)
        (priceRules : List PriceRule),
      0 < ⌈endDate - startDate⌉ →
      let rc := rentalCalcOf (basePriceOf car) startDate priceRules
        ⌈endDate - startDate⌉
      let cd := (couponStep (rc.subtotal - rc.lengthDiscount) coupon (rc.nights : ℚ)).1
      let amount := rc.subtotal - rc.lengthDiscount - cd
      let q := assembleQuote (basePriceOf car) rc coupon
      generateQuote car startDate endDate coupon priceRules = .ok q ∧
      q.subtotal = rc.subtotal ∧
      q.lengthDiscount = rc.lengthDiscount ∧
      q.couponDiscount = round2 cd ∧
      q.taxes = round2 (amount * (1/10)) ∧
      q.total = round2 (amount + q.taxes) ∧
      q.priceBreakdown.baseSubtotal = q.subtotal ∧
      q.priceBreakdown.afterLengthDiscount = q.subtotal - q.lengthDiscount ∧
      q.priceBreakdown.afterCouponDiscount = round2 amount ∧
      q.priceBreakdown.taxableAmount = q.priceBreakdown.afterCouponDiscount ∧
      q.priceBreakdown.finalTotal = q.total) ∧
    (generateQuote { dailyRentalPrice := some 100 } 0 5 none []).map
      (fun q => (q.subtotal, q.taxes, q.total)) = .ok (500, 50, 550) := by
  constructor
  · intro car startDate endDate coupon priceRules hn
    intro rc cd amount q
    have h2s : TwoDec rc.subtotal :=
      rentalCalcOf_subtotal_twoDec (basePriceOf car) startDate priceRules _
    have h2l : TwoDec rc.lengthDiscount :=
      rentalCalcOf_lengthDiscount_twoDec (basePriceOf car) startDate priceRules _
    refine ⟨generateQuote_eq_ok (calculateRentalPrice_eq_ok hn),
      ?_, ?_, rfl, rfl, rfl, ?_, ?_, rfl, rfl, rfl⟩
    · exact h2s.round2_eq
    · exact h2l.round2_eq
    · show round2 rc.subtotal = round2 rc.subtotal
      rfl
    · show round2 (rc.subtotal - rc.lengthDiscount) =
        round2 rc.subtotal - round2 rc.lengthDiscount
      rw [h2s.round2_eq, h2l.round2_eq, (h2s.sub h2l).round2_eq]
  · decide

/-- Witness for C1: the quote equalities at base price 100, 5 nights, no
rules and no coupon. -/
theorem C1_quote_arithmetic_witness :
    generateQuote { dailyRentalPrice := some 100 } (0 : ℚ) 5 none [] =
      .ok (assembleQuote (basePriceOf { dailyRentalPrice := some 100 })
        (rentalCalcOf (basePriceOf { dailyRentalPrice := some 100 }) 0 []
          ⌈(5 : ℚ) - 0⌉) none) ∧
    (assembleQuote (basePriceOf { dailyRentalPrice := some 100 })
        (rentalCalcOf (basePriceOf { dailyRentalPrice := some 100 }) 0 []
          ⌈(5 : ℚ) - 0⌉) none).subtotal =
      (rentalCalcOf (basePriceOf { dailyRentalPrice := some 100 }) 0 []
        ⌈(5 : ℚ) - 0⌉).subtotal := by
  have h := C1_quote_arithmetic.1 { dailyRentalPrice := some 100 } 0 5 none []
    (by decide)
  exact ⟨h.1, h.2.1⟩

end CarRental
